import Mathlib

/-!
# Verification of the exdir object-identity and persistence core

Shallow embedding of the repository's `exdir` package (`base.py`,
`attribute.py`, `data_set.py`, `directory.py`).  Python objects become
nodes in an explicit system state (`Sys`); file-system effects become a
pure `FS` value; JSON documents become the inductive `JVal`; exceptions
become `Except String` results paired with the post-state (a raised
exception does not roll back mutations that already happened).

Python `dict` / `collections.OrderedDict` are modelled as association
lists with Python's insertion-order semantics (`dictSet` updates an
existing key in place, appends a fresh key at the end; `dictPop` removes
a key).

All definitions are structurally recursive so that concrete runs reduce
inside the kernel; in particular the `posixpath` functions are
implemented over `List Char` rather than through the built-in `String`
primitives.
-/

/-- JSON-representable values (Python objects that `json.dump` accepts).
`obj` keeps key insertion order, matching
`json.load(..., object_pairs_hook=collections.OrderedDict)`. -/
inductive JVal where
  | null
  | bool (b : Bool)
  | num (n : Int)
  | str (s : String)
  | arr (xs : List JVal)
  | obj (kvs : List (String × JVal))

mutual
/-- Structural Boolean equality on JSON values (defined mutually with its
list helpers so that it reduces inside the kernel). -/
def JVal.beq : JVal → JVal → Bool
  | .null, .null => true
  | .bool a, .bool b => a == b
  | .num a, .num b => a == b
  | .str a, .str b => a == b
  | .arr as, .arr bs => JVal.beqL as bs
  | .obj as, .obj bs => JVal.beqKV as bs
  | _, _ => false
def JVal.beqL : List JVal → List JVal → Bool
  | [], [] => true
  | a :: as, b :: bs => JVal.beq a b && JVal.beqL as bs
  | _, _ => false
def JVal.beqKV : List (String × JVal) → List (String × JVal) → Bool
  | [], [] => true
  | (k, a) :: as, (l, b) :: bs => k == l && JVal.beq a b && JVal.beqKV as bs
  | _, _ => false
end

mutual
theorem JVal.beq_sound : ∀ a b, JVal.beq a b = true → a = b
  | .null, .null, _ => rfl
  | .bool a, .bool b, h => by
    simp only [JVal.beq, beq_iff_eq] at h
    rw [h]
  | .num a, .num b, h => by
    simp only [JVal.beq, beq_iff_eq] at h
    rw [h]
  | .str a, .str b, h => by
    simp only [JVal.beq, beq_iff_eq] at h
    rw [h]
  | .arr as, .arr bs, h => by
    rw [JVal.beqL_sound as bs (by simpa [JVal.beq] using h)]
  | .obj as, .obj bs, h => by
    rw [JVal.beqKV_sound as bs (by simpa [JVal.beq] using h)]
  | .null, .bool _, h | .null, .num _, h | .null, .str _, h | .null, .arr _, h
  | .null, .obj _, h
  | .bool _, .null, h | .bool _, .num _, h | .bool _, .str _, h | .bool _, .arr _, h
  | .bool _, .obj _, h
  | .num _, .null, h | .num _, .bool _, h | .num _, .str _, h | .num _, .arr _, h
  | .num _, .obj _, h
  | .str _, .null, h | .str _, .bool _, h | .str _, .num _, h | .str _, .arr _, h
  | .str _, .obj _, h
  | .arr _, .null, h | .arr _, .bool _, h | .arr _, .num _, h | .arr _, .str _, h
  | .arr _, .obj _, h
  | .obj _, .null, h | .obj _, .bool _, h | .obj _, .num _, h | .obj _, .str _, h
  | .obj _, .arr _, h => by simp [JVal.beq] at h
theorem JVal.beqL_sound : ∀ as bs, JVal.beqL as bs = true → as = bs
  | [], [], _ => rfl
  | a :: as, b :: bs, h => by
    simp only [JVal.beqL, Bool.and_eq_true] at h
    rw [JVal.beq_sound a b h.1, JVal.beqL_sound as bs h.2]
  | [], _ :: _, h | _ :: _, [], h => by simp [JVal.beqL] at h
theorem JVal.beqKV_sound : ∀ as bs, JVal.beqKV as bs = true → as = bs
  | [], [], _ => rfl
  | (k, a) :: as, (l, b) :: bs, h => by
    simp only [JVal.beqKV, Bool.and_eq_true, beq_iff_eq] at h
    rw [h.1.1, JVal.beq_sound a b h.1.2, JVal.beqKV_sound as bs h.2]
  | [], _ :: _, h | _ :: _, [], h => by simp [JVal.beqKV] at h
end

mutual
theorem JVal.beq_refl : ∀ a, JVal.beq a a = true
  | .null => rfl
  | .bool b => by simp [JVal.beq]
  | .num n => by simp [JVal.beq]
  | .str s => by simp [JVal.beq]
  | .arr xs => by simp [JVal.beq, JVal.beqL_refl xs]
  | .obj kvs => by simp [JVal.beq, JVal.beqKV_refl kvs]
theorem JVal.beqL_refl : ∀ xs, JVal.beqL xs xs = true
  | [] => rfl
  | a :: as => by simp [JVal.beqL, JVal.beq_refl a, JVal.beqL_refl as]
theorem JVal.beqKV_refl : ∀ kvs, JVal.beqKV kvs kvs = true
  | [] => rfl
  | (k, a) :: as => by simp [JVal.beqKV, JVal.beq_refl a, JVal.beqKV_refl as]
end

instance : DecidableEq JVal := fun a b =>
  if h : JVal.beq a b = true then .isTrue (JVal.beq_sound a b h)
  else .isFalse (fun he => h (he ▸ JVal.beq_refl a))

/-- The runtime type of a JSON value, used for `isinstance` checks against a
serializer's declared `data_type`.  `jobj` stands for
`collections.OrderedDict`. -/
inductive JType where
  | jnull | jbool | jnum | jstr | jarr | jobj
  deriving DecidableEq

/-- `isinstance(v, t)` for the container types that occur in the code. -/
def isInstance : JVal → JType → Bool
  | .null, .jnull => true
  | .bool _, .jbool => true
  | .num _, .jnum => true
  | .str _, .jstr => true
  | .arr _, .jarr => true
  | .obj _, .jobj => true
  | _, _ => false

/-- Printable name of a declared type (`data_type.__name__`). -/
def typeName : JType → String
  | .jnull => "NoneType"
  | .jbool => "bool"
  | .jnum => "int"
  | .jstr => "str"
  | .jarr => "list"
  | .jobj => "OrderedDict"

/-- Printable name of a value's class (`data.__class__.__name__`). -/
def valTypeName : JVal → String
  | .null => "NoneType"
  | .bool _ => "bool"
  | .num _ => "int"
  | .str _ => "str"
  | .arr _ => "list"
  | .obj _ => "OrderedDict"

/-- `d[k]` lookup in a Python dict modelled as an association list. -/
def dictGet {β : Type} : List (String × β) → String → Option β
  | [], _ => none
  | e :: r, k => if e.1 = k then some e.2 else dictGet r k

/-- `d[k] = v`: update in place when the key exists (keeping its position),
append at the end otherwise — Python dict insertion-order semantics. -/
def dictSet {β : Type} : List (String × β) → String → β → List (String × β)
  | [], k, v => [(k, v)]
  | e :: r, k, v => if e.1 = k then (k, v) :: r else e :: dictSet r k v

/-- `d.pop(k, None)`: drop the entry with key `k` when present. -/
def dictPop {β : Type} : List (String × β) → String → List (String × β)
  | [], _ => []
  | e :: r, k => if e.1 = k then r else e :: dictPop r k

/-- Whether a key is present (`k in d`). -/
def dictHas {β : Type} (d : List (String × β)) (k : String) : Bool :=
  (dictGet d k).isSome

@[simp] theorem dictGet_dictSet_same {β : Type} (d : List (String × β)) (k : String) (v : β) :
    dictGet (dictSet d k v) k = some v := by
  induction d with
  | nil => simp [dictSet, dictGet]
  | cons e r ih =>
    by_cases h : e.1 = k
    · simp [dictSet, dictGet, h]
    · simp [dictSet, dictGet, h, ih]

@[simp] theorem dictGet_dictSet_other {β : Type} (d : List (String × β)) (k k' : String)
    (v : β) (h : k' ≠ k) : dictGet (dictSet d k v) k' = dictGet d k' := by
  induction d with
  | nil => simp [dictSet, dictGet, Ne.symm h]
  | cons e r ih =>
    by_cases he : e.1 = k
    · subst he
      simp [dictSet, dictGet, Ne.symm h]
    · simp [dictSet, dictGet, he, ih]

/-! ## Faithful models of the `posixpath` functions used by the code

Implemented over `List Char` so that every concrete path computation
reduces by `rfl`/`decide`. -/

/-- `s.split(sep)` on character lists (Python `str.split` with a one-char
separator: no merging of adjacent separators, empty string gives `[""]`). -/
def splitChar (sep : Char) : List Char → List (List Char)
  | [] => [[]]
  | c :: cs =>
    match splitChar sep cs with
    | [] => if c = sep then [[], [c]] else [[c]]
    | h :: t => if c = sep then [] :: h :: t else (c :: h) :: t

/-- `p.startswith(s)`. -/
def strStartsWith (p s : String) : Bool := s.data.isPrefixOf p.data

/-- `p.endswith(s)`. -/
def strEndsWith (p s : String) : Bool := s.data.isSuffixOf p.data

/-- `os.path.join(a, b)` (POSIX, two arguments). -/
def pathJoin (a b : String) : String :=
  if strStartsWith b "/" then b
  else if a = "" ∨ strEndsWith a "/" then a ++ b
  else a ++ "/" ++ b

/-- `os.path.split(p)` (POSIX): split at the final slash; the head keeps no
trailing slashes unless it consists solely of slashes. -/
def pathSplit (p : String) : String × String :=
  let rev := p.data.reverse
  let tail := String.mk (rev.takeWhile (· ≠ '/')).reverse
  let headFull := (rev.dropWhile (· ≠ '/')).reverse
  let head :=
    if headFull ≠ [] ∧ ¬ headFull.all (· = '/') then
      String.mk ((headFull.reverse.dropWhile (· = '/')).reverse)
    else String.mk headFull
  (head, tail)

/-- `os.path.normpath(p)` (POSIX): collapse `//`, `.` and `..` components,
preserving one or exactly two leading slashes. -/
def normpath (p : String) : String :=
  if p = "" then "."
  else
    let initialSlashes : Nat :=
      if strStartsWith p "/" then
        if strStartsWith p "//" ∧ ¬ strStartsWith p "///" then 2 else 1
      else 0
    let newComps := (splitChar '/' p.data).foldl (fun acc comp =>
      if comp = [] ∨ comp = ['.'] then acc
      else if comp ≠ ['.', '.'] ∨ (initialSlashes = 0 ∧ acc = []) ∨
          acc.getLast? = some ['.', '.'] then
        acc ++ [comp]
      else if acc ≠ [] then acc.dropLast
      else acc) []
    let res := List.replicate initialSlashes '/' ++ List.intercalate ['/'] newComps
    if res = [] then "." else String.mk res

example : normpath "/r/./x" = "/r/x" := by decide
example : normpath "/r//x/" = "/r/x" := by decide
example : normpath "a/b/../c" = "a/c" := by decide
example : normpath "" = "." := by decide
example : normpath "/" = "/" := by decide
example : pathSplit "/r/a/.attributes" = ("/r/a", ".attributes") := by decide
example : pathSplit "abc" = ("", "abc") := by decide
example : pathSplit "/x" = ("/", "x") := by decide
example : pathJoin "/r" ".meta" = "/r/.meta" := by decide

/-! ## File-system model

A snapshot of the parts of the disk the code touches: the set of existing
directory paths and a map from file paths to their contents.  A content is
either a parseable JSON document or unparseable bytes (carrying the parse
error `str(e)` that `json.load` would raise). -/

/-- Contents of a file on disk. -/
inductive FileContent where
  | json (v : JVal)
  | invalid (err : String)
  deriving DecidableEq

/-- The file-system snapshot. -/
structure FS where
  dirs : List String
  files : List (String × FileContent)
  deriving DecidableEq

/-- `os.path.isdir(p)`. -/
def isdirB (fs : FS) (p : String) : Bool := fs.dirs.contains p

/-- Look up a file's content. -/
def fileGet (fs : FS) (p : String) : Option FileContent := dictGet fs.files p

/-- `os.path.isfile(p)`. -/
def isfileB (fs : FS) (p : String) : Bool := (fileGet fs p).isSome

/-- `os.path.exists(p)`. -/
def pathExistsB (fs : FS) (p : String) : Bool := isdirB fs p || isfileB fs p

/-- `Object.delete`: `shutil.rmtree` for a directory (recursively removing
everything beneath it), `os.remove` for a file, and a no-op otherwise. -/
def physicalDelete (fs : FS) (p : String) : FS :=
  if isdirB fs p then
    { dirs := fs.dirs.filter (fun q => !(q = p || strStartsWith q (p ++ "/"))),
      files := fs.files.filter (fun e => !(strStartsWith e.1 (p ++ "/"))) }
  else if isfileB fs p then
    { fs with files := fs.files.filter (fun e => !(e.1 = p)) }
  else fs

/-- `open(path, "w")` followed by `json.dump(value, f, indent=4)`. -/
def fsWrite (fs : FS) (p : String) (c : FileContent) : FS :=
  { fs with files := dictSet fs.files p c }

/-- `os.makedirs(p)` with fuel (each recursive step strictly shortens the
path in practice): create the missing ancestors, then the leaf. -/
def makedirsAux : Nat → FS → String → FS
  | 0, fs, p => { fs with dirs := fs.dirs ++ [p] }
  | fuel + 1, fs, p =>
    let head := (pathSplit p).1
    let fs' :=
      if head ≠ "" ∧ head ≠ p ∧ ¬ pathExistsB fs head then makedirsAux fuel fs head
      else fs
    { fs' with dirs := fs'.dirs ++ [p] }

/-- `os.makedirs(p)`. -/
def makedirs (fs : FS) (p : String) : FS := makedirsAux p.data.length fs p

/-- Names of the immediate subdirectories of `p`: `next(os.walk(p))[1]`. -/
def subdirNames (fs : FS) (p : String) : List String :=
  fs.dirs.filterMap (fun q =>
    if strStartsWith q (p ++ "/") then
      let rest := q.data.drop (p.data.length + 1)
      if rest ≠ [] ∧ ¬ rest.contains '/' then some (String.mk rest) else none
    else none)

/-! ## The object graph

Every live Python object of the classes `Object`, `Deferred`, `Serializer`,
`Attribute`, `DataSet`, `Directory` and `File` is a node identified by a
`Nat`.  The single `File` (root container) of a session is node `fileId = 0`;
its dirty ledger (`File.unsaved_changes`) and the per-class weak caches
(`WeakCache`) live in the system state.  Weak-reference eviction is not
modelled: every claim under study keeps the relevant instances strongly
referenced, which is exactly the situation in which the caches keep their
entries. -/

/-- The Python class of a node (used for cache separation and method
dispatch). -/
inductive Cls where
  | object | deferred | serializerCls | attributeCls | dataSetCls | directoryCls | fileCls
  deriving DecidableEq

/-- Class name as used in the per-class cache key. -/
def clsName : Cls → String
  | .object => "Object"
  | .deferred => "Deferred"
  | .serializerCls => "Serializer"
  | .attributeCls => "Attribute"
  | .dataSetCls => "DataSet"
  | .directoryCls => "Directory"
  | .fileCls => "File"

/-- The state of one in-memory object.  Serializer-only fields (`dataType`,
`data`, `initialized`) and Directory-only fields (`memory`, `metaId`,
`attrId`, `dataSetId`) are unused by the other classes. -/
structure Node where
  cls : Cls
  path : String
  unsaved : Bool
  pendingDeletion : Bool
  dataType : Option JType
  data : JVal
  initialized : Bool
  memory : List (String × Nat)
  metaId : Nat
  attrId : Nat
  dataSetId : Nat

/-- Placeholder for unallocated node ids. -/
def defaultNode : Node :=
  { cls := .object, path := "", unsaved := false, pendingDeletion := false,
    dataType := none, data := .null, initialized := false,
    memory := [], metaId := 0, attrId := 0, dataSetId := 0 }

/-- The whole interpreter state: the object graph, the root `File`'s dirty
ledger (`unsaved_changes`: path → node), the weak caches (key → node) and
the disk. -/
structure Sys where
  nodes : Nat → Node
  nextId : Nat
  ledger : List (String × Nat)
  cache : List (String × Nat)
  fs : FS
  filePath : String

def getNode (s : Sys) (nid : Nat) : Node := s.nodes nid

def updateNode (s : Sys) (nid : Nat) (f : Node → Node) : Sys :=
  { s with nodes := fun m => if m = nid then f (s.nodes nid) else s.nodes m }

@[simp] theorem getNode_updateNode_same (s : Sys) (nid : Nat) (f : Node → Node) :
    getNode (updateNode s nid f) nid = f (getNode s nid) := by
  simp [getNode, updateNode]

@[simp] theorem getNode_updateNode_other (s : Sys) (nid mid : Nat) (f : Node → Node)
    (h : mid ≠ nid) : getNode (updateNode s nid f) mid = getNode s mid := by
  simp [getNode, updateNode, h]

@[simp] theorem fs_updateNode (s : Sys) (nid : Nat) (f : Node → Node) :
    (updateNode s nid f).fs = s.fs := rfl

@[simp] theorem ledger_updateNode (s : Sys) (nid : Nat) (f : Node → Node) :
    (updateNode s nid f).ledger = s.ledger := rfl

@[simp] theorem cache_updateNode (s : Sys) (nid : Nat) (f : Node → Node) :
    (updateNode s nid f).cache = s.cache := rfl

@[simp] theorem filePath_updateNode (s : Sys) (nid : Nat) (f : Node → Node) :
    (updateNode s nid f).filePath = s.filePath := rfl

@[simp] theorem nextId_updateNode (s : Sys) (nid : Nat) (f : Node → Node) :
    (updateNode s nid f).nextId = s.nextId := rfl

/-! ## WeakCache construction (`base.WeakCache.__call__`)

The metaclass keys each per-class cache by `str(args) + str(kwargs)` — the
*raw* constructor arguments, not the normalized path that
`Object.__init__` stores.  `repr` of the `File` argument is
`<exdir.directory.File object to 'PATH'>` (from `Object.__repr__`). -/

/-- `repr(f)` of the root `File` object. -/
def fileRepr (filePath : String) : String :=
  "<exdir.directory.File object to '" ++ filePath ++ "'>"

/-- `str(args) + str(kwargs)` for a two-argument construction `(path, file)`,
prefixed by the class (each class has its own weak cache). -/
def cacheKey (cls : Cls) (rawPath : String) (filePath : String) : String :=
  clsName cls ++ ":('" ++ rawPath ++ "', " ++ fileRepr filePath ++ ")" ++ "\x7b\x7d"

/-- Construct a `Serializer` (or one of its `Attribute`/`DataSet`
subclasses) through the weak cache: return the live instance when the key
is present, otherwise run `__init__` (store the normalized path, the
class default as `_data`, clean flags) and cache the new instance. -/
def constructSer (s : Sys) (cls : Cls) (dt : Option JType) (dfault : JVal)
    (rawPath : String) : Sys × Nat :=
  let key := cacheKey cls rawPath s.filePath
  match dictGet s.cache key with
  | some nid => (s, nid)
  | none =>
    let nid := s.nextId
    let node : Node :=
      { cls := cls, path := normpath rawPath, unsaved := false, pendingDeletion := false,
        dataType := dt, data := dfault, initialized := false,
        memory := [], metaId := 0, attrId := 0, dataSetId := 0 }
    ({ s with nodes := fun m => if m = nid then node else s.nodes m,
              cache := dictSet s.cache key nid,
              nextId := nid + 1 }, nid)

/-- `base.Serializer(path, f)`: `data_type = None`, default `None`. -/
def mkSerializer (s : Sys) (rawPath : String) : Sys × Nat :=
  constructSer s .serializerCls none .null rawPath

/-- `attribute.Attribute(path, f)`: `data_type = OrderedDict`, default `OrderedDict()`. -/
def mkAttribute (s : Sys) (rawPath : String) : Sys × Nat :=
  constructSer s .attributeCls (some .jobj) (.obj []) rawPath

/-- `data_set.DataSet(path, f)`: inherits `data_type = OrderedDict`. -/
def mkDataSet (s : Sys) (rawPath : String) : Sys × Nat :=
  constructSer s .dataSetCls (some .jobj) (.obj []) rawPath

/-- `directory.Directory(path, f)` through the weak cache.  A fresh
directory stores the normalized path, an empty in-memory child table and
constructs its three fixed-name serializers (`.meta`, `.attributes`,
`.data_sets`). -/
def mkDirectory (s : Sys) (rawPath : String) : Sys × Nat :=
  let key := cacheKey .directoryCls rawPath s.filePath
  match dictGet s.cache key with
  | some nid => (s, nid)
  | none =>
    let nid := s.nextId
    let p := normpath rawPath
    let s1 := { s with nextId := nid + 1 }
    let (s2, mId) := mkAttribute s1 (pathJoin p ".meta")
    let (s3, aId) := mkAttribute s2 (pathJoin p ".attributes")
    let (s4, dId) := mkDataSet s3 (pathJoin p ".data_sets")
    let node : Node :=
      { cls := .directoryCls, path := p, unsaved := false, pendingDeletion := false,
        dataType := none, data := .null, initialized := false,
        memory := [], metaId := mId, attrId := aId, dataSetId := dId }
    ({ s4 with nodes := fun m => if m = nid then node else s4.nodes m,
               cache := dictSet s4.cache key nid }, nid)

/-- `directory.File(path)`: the root container, node id `0`.  It is its
own `file` reference; its `unsaved_changes` ledger starts empty.  (The
trailing existence check `File '...' doesn't exist.` is modelled by
`fileNew`.) -/
def fileInit (rawPath : String) (fs : FS) : Sys :=
  let p := normpath rawPath
  let s0 : Sys :=
    { nodes := fun _ => defaultNode, nextId := 1, ledger := [], cache := [],
      fs := fs, filePath := p }
  let (s1, mId) := mkAttribute s0 (pathJoin p ".meta")
  let (s2, aId) := mkAttribute s1 (pathJoin p ".attributes")
  let (s3, dId) := mkDataSet s2 (pathJoin p ".data_sets")
  let fileNode : Node :=
    { cls := .fileCls, path := p, unsaved := false, pendingDeletion := false,
      dataType := none, data := .null, initialized := false,
      memory := [], metaId := mId, attrId := aId, dataSetId := dId }
  { s3 with nodes := fun m => if m = 0 then fileNode else s3.nodes m,
            cache := dictSet s3.cache ("File:('" ++ rawPath ++ "',)" ++ "\x7b\x7d") 0 }

/-- `File.__init__`'s final existence check: the root directory must
already exist on disk. -/
def fileNew (rawPath : String) (fs : FS) : Except String Sys :=
  let s := fileInit rawPath fs
  if pathExistsB fs s.filePath then .ok s
  else .error ("File '" ++ s.filePath ++ "' doesn't exist.")

/-! ## Deferred-mutation core (`base.Deferred`, `directory.File` ledger) -/

/-- `File.handle_unsaved_changes(serializer, add)`: when `add` is true the
serializer is stored in the ledger under *its* path; when false the code
pops `self.path` — the root `File`'s own path, (faithfully) not the
serializer's. -/
def handle_unsaved_changes (s : Sys) (nid : Nat) (add : Bool) : Sys :=
  if add then { s with ledger := dictSet s.ledger (getNode s nid).path nid }
  else { s with ledger := dictPop s.ledger s.filePath }

/-- `Deferred.set_unsaved_changes(state)`: notify the root's ledger, then
record the flag. -/
def set_unsaved_changes (s : Sys) (nid : Nat) (state : Bool) : Sys :=
  let s1 := handle_unsaved_changes s nid state
  updateNode s1 nid (fun n => { n with unsaved := state })

/-- `File.has_unsaved_changes()`: ledger non-empty. -/
def file_has_unsaved_changes (s : Sys) : Bool := !s.ledger.isEmpty

/-- `Deferred.delete()`: stage the deletion, mark dirty; the disk is not
touched. -/
def Deferred.delete (s : Sys) (nid : Nat) : Sys :=
  let s1 := updateNode s nid (fun n => { n with pendingDeletion := true })
  set_unsaved_changes s1 nid true

/-- `Deferred.commit()`: physically delete when staged and still on disk,
then clear both flags. -/
def Deferred.commit (s : Sys) (nid : Nat) : Sys :=
  let n := getNode s nid
  let s1 :=
    if n.pendingDeletion then
      if pathExistsB s.fs n.path then { s with fs := physicalDelete s.fs n.path } else s
    else s
  let s2 := updateNode s1 nid (fun n => { n with pendingDeletion := false })
  set_unsaved_changes s2 nid false

/-! ## Serializer (`base.Serializer`) -/

/-- The declared default: `self.data_type() if callable(...) else self.data_type`. -/
def defaultOf : Option JType → JVal
  | none => .null
  | some .jnull => .null
  | some .jbool => .bool false
  | some .jnum => .num 0
  | some .jstr => .str ""
  | some .jarr => .arr []
  | some .jobj => .obj []

/-- The `data` property getter: lazily hydrate from disk when not yet
initialized and the path exists; a parse/IO failure re-raises with the
original message wrapped as `"<cause> in '<path>'."` and leaves the state
untouched; a successful load marks the node hydrated and clean. -/
def Serializer.dataGet (s : Sys) (nid : Nat) : Sys × Except String JVal :=
  let n := getNode s nid
  if !n.initialized && pathExistsB s.fs n.path then
    match fileGet s.fs n.path with
    | some (.json v) =>
      let s1 := updateNode s nid (fun n => { n with data := v, initialized := true })
      let s2 := set_unsaved_changes s1 nid false
      (s2, .ok v)
    | some (.invalid err) => (s, .error (err ++ " in '" ++ n.path ++ "'."))
    | none => (s, .error ("IsADirectoryError in '" ++ n.path ++ "'."))
  else (s, .ok n.data)

/-- The `data` property setter: reject a value that is not an instance of
the declared `data_type` (raising `ValueError` before any mutation);
otherwise store it, mark hydrated, clear any staged deletion and mark
dirty. -/
def Serializer.dataSet (s : Sys) (nid : Nat) (v : JVal) : Sys × Except String Unit :=
  let n := getNode s nid
  let mismatch : Bool :=
    match n.dataType with
    | some t => !isInstance v t
    | none => false
  if mismatch then
    (s, .error ("Unable to set data, expected type '" ++
      typeName (n.dataType.getD .jnull) ++ "' got '" ++ valTypeName v ++ "'."))
  else
    let s1 := updateNode s nid
      (fun n => { n with data := v, initialized := true, pendingDeletion := false })
    (set_unsaved_changes s1 nid true, .ok ())

/-- `Serializer.commit()`: the deletion path defers to `Deferred.commit`;
otherwise create the parent directory when missing and write the
in-memory value as JSON; in both cases finish hydrated, not pending and
clean. -/
def Serializer.commit (s : Sys) (nid : Nat) : Sys :=
  let n := getNode s nid
  let s1 :=
    if n.pendingDeletion then Deferred.commit s nid
    else
      let dir := (pathSplit n.path).1
      let fs1 := if !pathExistsB s.fs dir then makedirs s.fs dir else s.fs
      { s with fs := fsWrite fs1 n.path (.json n.data) }
  let s2 := updateNode s1 nid (fun n => { n with initialized := true, pendingDeletion := false })
  set_unsaved_changes s2 nid false

/-- `Serializer.clear_cache(commit_changes)`: flush first when requested
and dirty, else just mark clean; then reset the value to the default,
un-hydrate and drop any staged deletion. -/
def Serializer.clear_cache (s : Sys) (nid : Nat) (commitChanges : Bool) : Sys :=
  let s1 :=
    if commitChanges && (getNode s nid).unsaved then Serializer.commit s nid
    else set_unsaved_changes s nid false
  updateNode s1 nid (fun n =>
    { n with data := defaultOf n.dataType, initialized := false, pendingDeletion := false })

/-- `Serializer.delete()`: defer as `Deferred.delete`, and reset the
in-memory value to the default immediately. -/
def Serializer.delete (s : Sys) (nid : Nat) : Sys :=
  let s1 := Deferred.delete s nid
  updateNode s1 nid (fun n => { n with data := defaultOf n.dataType, initialized := false })

/-- Method dispatch for `commit` as the root's ledger walk performs it:
`Directory`/`File` entries use `Deferred.commit`, serializer classes use
`Serializer.commit`. -/
def nodeCommit (s : Sys) (nid : Nat) : Sys :=
  match (getNode s nid).cls with
  | .directoryCls | .fileCls | .deferred | .object => Deferred.commit s nid
  | _ => Serializer.commit s nid

/-- `File.commit()`: commit every ledger entry, then clear the ledger. -/
def File.commit (s : Sys) : Sys :=
  let s1 := s.ledger.foldl (fun acc e => nodeCommit acc e.2) s
  { s1 with ledger := [] }

/-! ## Attribute container (`attribute.Attribute`) -/

/-- `Attribute.__setitem__`: `self.data[key] = value` (the getter may
lazily hydrate, and may raise) followed by `set_unsaved_changes(True)`.
The in-place mutation bypasses the typed `data` setter. -/
def Attribute.setItem (s : Sys) (nid : Nat) (k : String) (v : JVal) :
    Sys × Except String Unit :=
  match Serializer.dataGet s nid with
  | (s1, .error e) => (s1, .error e)
  | (s1, .ok d) =>
    match d with
    | .obj kvs =>
      let s2 := updateNode s1 nid (fun n => { n with data := .obj (dictSet kvs k v) })
      (set_unsaved_changes s2 nid true, .ok ())
    | _ => (s1, .error "TypeError: object does not support item assignment")

/-- `Attribute.__delitem__`: `del self.data[item]` (KeyError when absent)
followed by `set_unsaved_changes(True)`. -/
def Attribute.delItem (s : Sys) (nid : Nat) (k : String) :
    Sys × Except String Unit :=
  match Serializer.dataGet s nid with
  | (s1, .error e) => (s1, .error e)
  | (s1, .ok d) =>
    match d with
    | .obj kvs =>
      if dictHas kvs k then
        let s2 := updateNode s1 nid (fun n => { n with data := .obj (dictPop kvs k) })
        (set_unsaved_changes s2 nid true, .ok ())
      else (s1, .error ("KeyError: '" ++ k ++ "'"))
    | _ => (s1, .error "TypeError: object does not support item deletion")

/-- `Attribute.__getitem__`: `self.data[item]`. -/
def Attribute.getItem (s : Sys) (nid : Nat) (k : String) :
    Sys × Except String JVal :=
  match Serializer.dataGet s nid with
  | (s1, .error e) => (s1, .error e)
  | (s1, .ok d) =>
    match d with
    | .obj kvs =>
      match dictGet kvs k with
      | some v => (s1, .ok v)
      | none => (s1, .error ("KeyError: '" ++ k ++ "'"))
    | _ => (s1, .error "TypeError: not subscriptable")

/-! ## Dataset container (`data_set.DataSet`, from `src/src/exdir/data_set.py`) -/

/-- `DataSet.serializer(item)`: the sibling untyped serializer at
`(parent directory of the manifest file)/item`, obtained through the weak
cache. -/
def DataSet.serializer (s : Sys) (nid : Nat) (item : String) : Sys × Nat :=
  let dir := (pathSplit (getNode s nid).path).1
  mkSerializer s (pathJoin dir item)

/-- `DataSet.__setitem__`: a `None` placeholder goes into the manifest via
the inherited `__setitem__`, then the value is written into the sibling
serializer. -/
def DataSet.setItem (s : Sys) (nid : Nat) (k : String) (v : JVal) :
    Sys × Except String Unit :=
  match Attribute.setItem s nid k .null with
  | (s1, .error e) => (s1, .error e)
  | (s1, .ok _) =>
    let (s2, sid) := DataSet.serializer s1 nid k
    Serializer.dataSet s2 sid v

/-- `DataSet.__delitem__`: remove the manifest entry, then stage deletion
of the sibling serializer. -/
def DataSet.delItem (s : Sys) (nid : Nat) (k : String) :
    Sys × Except String Unit :=
  match Attribute.delItem s nid k with
  | (s1, .error e) => (s1, .error e)
  | (s1, .ok _) =>
    let (s2, sid) := DataSet.serializer s1 nid k
    (Serializer.delete s2 sid, .ok ())

/-- `DataSet.__getitem__`: `_ = self.data[item]` validates membership in
the manifest (KeyError when absent), then the sibling serializer's data is
returned (triggering its own lazy load). -/
def DataSet.getItem (s : Sys) (nid : Nat) (k : String) :
    Sys × Except String JVal :=
  match Serializer.dataGet s nid with
  | (s1, .error e) => (s1, .error e)
  | (s1, .ok d) =>
    match d with
    | .obj kvs =>
      match dictGet kvs k with
      | none => (s1, .error ("KeyError: '" ++ k ++ "'"))
      | some _ =>
        let (s2, sid) := DataSet.serializer s1 nid k
        Serializer.dataGet s2 sid
    | _ => (s1, .error "TypeError: not subscriptable")

/-! ## Directory (`directory.Directory`) -/

/-- Python string `<=`, by code points. -/
def charListLe : List Char → List Char → Bool
  | [], _ => true
  | _ :: _, [] => false
  | a :: as, b :: bs =>
    if a.toNat < b.toNat then true
    else if b.toNat < a.toNat then false
    else charListLe as bs

/-- `a <= b` on strings, as Python compares them. -/
def strLeB (a b : String) : Bool := charListLe a.data b.data

/-- `Directory.__getitem__`: the in-memory pending-child table wins;
otherwise resolve `path/name` on disk (KeyError when absent, not a
directory, or the resolved object is pending deletion). -/
def Directory.getItem (s : Sys) (did : Nat) (item : String) :
    Sys × Except String Nat :=
  let d := getNode s did
  match dictGet d.memory item with
  | some cid => (s, .ok cid)
  | none =>
    let p := normpath (pathJoin d.path item)
    if !pathExistsB s.fs p then
      (s, .error ("KeyError: Path '" ++ d.path ++ "' doesn't exist."))
    else if !isdirB s.fs p then
      (s, .error ("KeyError: Path '" ++ d.path ++ "' is not a directory."))
    else
      let (s1, cid) := mkDirectory s p
      if (getNode s1 cid).pendingDeletion then
        (s1, .error ("KeyError: Path '" ++ d.path ++ "' exists, but is pending deletion."))
      else (s1, .ok cid)

/-- `Directory.__iter__` (materialized):
`next(os.walk(path))[1]` raises `StopIteration` when the path is not an
on-disk directory, which PEP 479 turns into a `RuntimeError` escaping the
generator; otherwise the on-disk subdirectory names are merged with the
in-memory child names (a set union), sorted ascending, and each name is
resolved through the cache, skipping objects pending deletion. -/
def Directory.iter (s : Sys) (did : Nat) : Sys × Except String (List Nat) :=
  let d := getNode s did
  if !isdirB s.fs d.path then
    (s, .error "RuntimeError: generator raised StopIteration")
  else
    let names := List.insertionSort (fun a b => strLeB a b = true)
      ((subdirNames s.fs d.path ++ d.memory.map Prod.fst).dedup)
    let r := names.foldl (fun (acc : Sys × List Nat) name =>
      let (s', cid) := mkDirectory acc.1 (pathJoin d.path name)
      if (getNode s' cid).pendingDeletion then (s', acc.2)
      else (s', acc.2 ++ [cid])) (s, [])
    (r.1, .ok r.2)

/-- `Directory.create_group(name)`: refuse when `path/name` exists on
disk; otherwise construct the child in memory only and register it in the
parent's pending-child table. -/
def Directory.create_group (s : Sys) (did : Nat) (name : String) :
    Sys × Except String Nat :=
  let d := getNode s did
  let dir := pathJoin d.path name
  if pathExistsB s.fs dir then
    (s, .error ("Unable to create folder from path '" ++ dir ++ "', it already exists."))
  else
    let (s1, cid) := mkDirectory s dir
    (updateNode s1 did (fun n => { n with memory := dictSet n.memory name cid }), .ok cid)

/-- `base.Deferred(path, f)` constructed directly (as the repository's own
tests do). -/
def mkDeferred (s : Sys) (rawPath : String) : Sys × Nat :=
  constructSer s .deferred none .null rawPath

/-! ## Frame lemmas for the state operations -/

@[simp] theorem fs_handle_unsaved_changes (s : Sys) (nid : Nat) (b : Bool) :
    (handle_unsaved_changes s nid b).fs = s.fs := by
  cases b <;> simp [handle_unsaved_changes]

@[simp] theorem nodes_handle_unsaved_changes (s : Sys) (nid : Nat) (b : Bool) :
    (handle_unsaved_changes s nid b).nodes = s.nodes := by
  cases b <;> simp [handle_unsaved_changes]

@[simp] theorem cache_handle_unsaved_changes (s : Sys) (nid : Nat) (b : Bool) :
    (handle_unsaved_changes s nid b).cache = s.cache := by
  cases b <;> simp [handle_unsaved_changes]

@[simp] theorem filePath_handle_unsaved_changes (s : Sys) (nid : Nat) (b : Bool) :
    (handle_unsaved_changes s nid b).filePath = s.filePath := by
  cases b <;> simp [handle_unsaved_changes]

@[simp] theorem nextId_handle_unsaved_changes (s : Sys) (nid : Nat) (b : Bool) :
    (handle_unsaved_changes s nid b).nextId = s.nextId := by
  cases b <;> simp [handle_unsaved_changes]

@[simp] theorem fs_set_unsaved_changes (s : Sys) (nid : Nat) (b : Bool) :
    (set_unsaved_changes s nid b).fs = s.fs := by
  simp [set_unsaved_changes]

@[simp] theorem cache_set_unsaved_changes (s : Sys) (nid : Nat) (b : Bool) :
    (set_unsaved_changes s nid b).cache = s.cache := by
  simp [set_unsaved_changes]

@[simp] theorem filePath_set_unsaved_changes (s : Sys) (nid : Nat) (b : Bool) :
    (set_unsaved_changes s nid b).filePath = s.filePath := by
  simp [set_unsaved_changes]

@[simp] theorem nextId_set_unsaved_changes (s : Sys) (nid : Nat) (b : Bool) :
    (set_unsaved_changes s nid b).nextId = s.nextId := by
  simp [set_unsaved_changes]

@[simp] theorem getNode_set_unsaved_changes_same (s : Sys) (nid : Nat) (b : Bool) :
    getNode (set_unsaved_changes s nid b) nid = { getNode s nid with unsaved := b } := by
  simp [set_unsaved_changes, getNode, updateNode, handle_unsaved_changes]
  cases b <;> simp

@[simp] theorem getNode_set_unsaved_changes_other (s : Sys) (nid mid : Nat) (b : Bool)
    (h : mid ≠ nid) :
    getNode (set_unsaved_changes s nid b) mid = getNode s mid := by
  simp [set_unsaved_changes, getNode, updateNode, handle_unsaved_changes, h]
  cases b <;> simp [getNode]

theorem ledger_set_unsaved_changes_true (s : Sys) (nid : Nat) :
    (set_unsaved_changes s nid true).ledger = dictSet s.ledger (getNode s nid).path nid := by
  simp [set_unsaved_changes, updateNode, handle_unsaved_changes]

theorem ledger_set_unsaved_changes_false (s : Sys) (nid : Nat) :
    (set_unsaved_changes s nid false).ledger = dictPop s.ledger s.filePath := by
  simp [set_unsaved_changes, updateNode, handle_unsaved_changes]

@[simp] theorem fs_Deferred_delete (s : Sys) (nid : Nat) :
    (Deferred.delete s nid).fs = s.fs := by
  simp [Deferred.delete]

@[simp] theorem getNode_Deferred_delete_same (s : Sys) (nid : Nat) :
    getNode (Deferred.delete s nid) nid =
      { getNode s nid with pendingDeletion := true, unsaved := true } := by
  simp [Deferred.delete]

@[simp] theorem getNode_Deferred_delete_other (s : Sys) (nid mid : Nat) (h : mid ≠ nid) :
    getNode (Deferred.delete s nid) mid = getNode s mid := by
  simp [Deferred.delete, h]

/-! ## Lemmas about the disk model -/

theorem isfileB_false_iff (fs : FS) (p : String) :
    isfileB fs p = false ↔ fileGet fs p = none := by
  cases h : fileGet fs p <;> simp [isfileB, h]

theorem dictGet_filter_none {β : Type} (l : List (String × β)) (f : String × β → Bool)
    (k : String) : dictGet l k = none → dictGet (l.filter f) k = none := by
  induction l with
  | nil => intro _; simp [dictGet]
  | cons e r ih =>
    intro h
    by_cases he : e.1 = k
    · simp [dictGet, he] at h
    · simp only [dictGet, he, if_false] at h
      by_cases hf : f e = true
      · simp [List.filter_cons, hf, dictGet, he, ih h]
      · simp only [Bool.not_eq_true] at hf
        simp [List.filter_cons, hf, ih h]

theorem dictGet_filter_keyne {β : Type} (l : List (String × β)) (k : String) :
    dictGet (l.filter (fun e => !(e.1 = k))) k = none := by
  induction l with
  | nil => simp [dictGet]
  | cons e r ih =>
    by_cases he : e.1 = k
    · simp [List.filter_cons, he, ih]
    · simp [List.filter_cons, he, dictGet, ih]

theorem physicalDelete_not_exists (fs : FS) (p : String)
    (h : pathExistsB fs p = false) : physicalDelete fs p = fs := by
  simp [pathExistsB, Bool.or_eq_false_iff] at h
  simp [physicalDelete, h.1, h.2]

theorem pathExistsB_physicalDelete_self (fs : FS) (p : String)
    (hwf : isdirB fs p = true → isfileB fs p = false) :
    pathExistsB (physicalDelete fs p) p = false := by
  by_cases hd : isdirB fs p = true
  · have hfn : dictGet fs.files p = none := by
      have hf := hwf hd
      cases h : fileGet fs p with
      | none => exact h
      | some c => simp [isfileB, h] at hf
    have h1 : isdirB (physicalDelete fs p) p = false := by
      simp only [physicalDelete, hd, if_true]
      simp [isdirB]
    have h2 : isfileB (physicalDelete fs p) p = false := by
      have hnone : dictGet (fs.files.filter (fun e => !(strStartsWith e.1 (p ++ "/")))) p = none :=
        dictGet_filter_none _ _ _ hfn
      simp only [physicalDelete, hd, if_true]
      simp [isfileB, fileGet, hnone]
    simp [pathExistsB, h1, h2]
  · simp only [Bool.not_eq_true] at hd
    by_cases hf : isfileB fs p = true
    · have hpd : physicalDelete fs p =
          { fs with files := fs.files.filter (fun e => !(e.1 = p)) } := by
        simp [physicalDelete, hd, hf]
      have h1 : isdirB (physicalDelete fs p) p = false := by
        rw [hpd]
        simpa [isdirB] using hd
      have h2 : isfileB (physicalDelete fs p) p = false := by
        rw [hpd]
        simp [isfileB, fileGet, dictGet_filter_keyne]
      simp [pathExistsB, h1, h2]
    · simp only [Bool.not_eq_true] at hf
      rw [physicalDelete_not_exists fs p (by simp [pathExistsB, hd, hf])]
      simp [pathExistsB, hd, hf]

theorem dirs_physicalDelete_under (fs : FS) (p q : String)
    (hd : isdirB fs p = true) (hq : q ∈ (physicalDelete fs p).dirs) :
    strStartsWith q (p ++ "/") = false := by
  simp [physicalDelete, hd] at hq
  exact hq.2.2

theorem files_physicalDelete_under (fs : FS) (p : String) (e : String × FileContent)
    (hd : isdirB fs p = true) (he : e ∈ (physicalDelete fs p).files) :
    strStartsWith e.1 (p ++ "/") = false := by
  simp [physicalDelete, hd] at he
  exact he.2

/-- `Deferred.commit` on a node staged for deletion whose path is still on
disk: the path is physically deleted and both flags clear. -/
theorem Deferred_commit_pending_exists (s : Sys) (nid : Nat)
    (hp : (getNode s nid).pendingDeletion = true)
    (he : pathExistsB s.fs (getNode s nid).path = true) :
    (Deferred.commit s nid).fs = physicalDelete s.fs (getNode s nid).path
    ∧ getNode (Deferred.commit s nid) nid =
      { getNode s nid with pendingDeletion := false, unsaved := false } := by
  simp only [getNode] at hp he
  simp [Deferred.commit, hp, he, set_unsaved_changes, updateNode,
    handle_unsaved_changes, getNode]

/-- `Deferred.commit` on a node staged for deletion whose path has
meanwhile disappeared from disk: the disk is untouched and both flags
clear. -/
theorem Deferred_commit_pending_gone (s : Sys) (nid : Nat)
    (hp : (getNode s nid).pendingDeletion = true)
    (he : pathExistsB s.fs (getNode s nid).path = false) :
    (Deferred.commit s nid).fs = s.fs
    ∧ getNode (Deferred.commit s nid) nid =
      { getNode s nid with pendingDeletion := false, unsaved := false } := by
  simp only [getNode] at hp he
  simp [Deferred.commit, hp, he, set_unsaved_changes, updateNode,
    handle_unsaved_changes, getNode]

/-! ## Claim C1 — ledger membership invariant -/

/-- Scenario for C1: a root `File` at `/r` (which exists on disk) and a
`Deferred` node at `/r/x` (node id 4). -/
def c1Sys : Sys := (mkDeferred (fileInit "/r" ⟨["/r"], []⟩) "/r/x").1

/-- C1 run: mark the node dirty, then mark it clean again. -/
def c1Run : Sys := set_unsaved_changes (set_unsaved_changes c1Sys 4 true) 4 false

/-- C1 (evidence of the code bug): after `set_unsaved_changes(True)`
followed by `set_unsaved_changes(False)` on the `Deferred` at `/r/x`, the
node's `unsaved` flag is `False`, yet its entry is still in the root's
`unsaved_changes` ledger — `File.handle_unsaved_changes` pops
`self.path` (the root's own path) instead of `serializer.path`, so the
"present in the ledger iff unsaved" invariant is violated. -/
theorem C1_ledger_entry_survives_clean_transition :
    (getNode c1Run 4).unsaved = false
    ∧ dictGet c1Run.ledger "/r/x" = some 4
    ∧ c1Run.ledger = [("/r/x", 4)] := by decide

/-! ## Claim C3 — deferred deletion round-trip -/

/-- C3: for a `Deferred` node whose path exists on disk (and, as on a real
file system, is not both a directory and a file), `delete()` leaves the
disk untouched and sets both the pending-deletion and unsaved flags;
`commit()` then removes the path from disk — recursively when it is a
directory (no surviving dir or file lies underneath it) — and clears both
flags.  And for any node staged for deletion whose path has meanwhile
disappeared (state `t`), `commit()` is a disk no-op that still clears both
flags. -/
theorem C3_deferred_deletion_round_trip
    (s t : Sys) (nid mid : Nat)
    (hex : pathExistsB s.fs (getNode s nid).path = true)
    (hwf : isdirB s.fs (getNode s nid).path = true →
      isfileB s.fs (getNode s nid).path = false)
    (hpend : (getNode t mid).pendingDeletion = true)
    (hgone : pathExistsB t.fs (getNode t mid).path = false) :
    (Deferred.delete s nid).fs = s.fs
    ∧ (getNode (Deferred.delete s nid) nid).pendingDeletion = true
    ∧ (getNode (Deferred.delete s nid) nid).unsaved = true
    ∧ pathExistsB (Deferred.commit (Deferred.delete s nid) nid).fs
        (getNode s nid).path = false
    ∧ (∀ q ∈ (Deferred.commit (Deferred.delete s nid) nid).fs.dirs,
        isdirB s.fs (getNode s nid).path = true →
        strStartsWith q ((getNode s nid).path ++ "/") = false)
    ∧ (∀ e ∈ (Deferred.commit (Deferred.delete s nid) nid).fs.files,
        isdirB s.fs (getNode s nid).path = true →
        strStartsWith e.1 ((getNode s nid).path ++ "/") = false)
    ∧ (getNode (Deferred.commit (Deferred.delete s nid) nid) nid).pendingDeletion = false
    ∧ (getNode (Deferred.commit (Deferred.delete s nid) nid) nid).unsaved = false
    ∧ (Deferred.commit t mid).fs = t.fs
    ∧ (getNode (Deferred.commit t mid) mid).pendingDeletion = false
    ∧ (getNode (Deferred.commit t mid) mid).unsaved = false := by
  have hfs1 : (Deferred.delete s nid).fs = s.fs := fs_Deferred_delete s nid
  have hn1 : getNode (Deferred.delete s nid) nid =
      { getNode s nid with pendingDeletion := true, unsaved := true } :=
    getNode_Deferred_delete_same s nid
  have hp1 : (getNode (Deferred.delete s nid) nid).pendingDeletion = true := by rw [hn1]
  have hpath1 : (getNode (Deferred.delete s nid) nid).path = (getNode s nid).path := by
    rw [hn1]
  have he1 : pathExistsB (Deferred.delete s nid).fs
      (getNode (Deferred.delete s nid) nid).path = true := by
    rw [hfs1, hpath1]; exact hex
  obtain ⟨hfs2, hn2⟩ := Deferred_commit_pending_exists (Deferred.delete s nid) nid hp1 he1
  have hfs2' : (Deferred.commit (Deferred.delete s nid) nid).fs =
      physicalDelete s.fs (getNode s nid).path := by
    rw [hfs2, hfs1, hpath1]
  refine ⟨hfs1, hp1, by rw [hn1], ?_, ?_, ?_, by rw [hn2, hn1], by rw [hn2, hn1],
    ?_, ?_, ?_⟩
  · rw [hfs2']
    exact pathExistsB_physicalDelete_self s.fs _ hwf
  · intro q hq hdir
    rw [hfs2'] at hq
    exact dirs_physicalDelete_under s.fs _ q hdir hq
  · intro e heq hdir
    rw [hfs2'] at heq
    exact files_physicalDelete_under s.fs _ e hdir heq
  · exact (Deferred_commit_pending_gone t mid hpend hgone).1
  · rw [(Deferred_commit_pending_gone t mid hpend hgone).2]
  · rw [(Deferred_commit_pending_gone t mid hpend hgone).2]

/-- C3 scenario state: root `/r` with an existing file `/r/x`, a `Deferred`
node 4 on it. -/
def c3S : Sys :=
  (mkDeferred (fileInit "/r" ⟨["/r"], [("/r/x", FileContent.json .null)]⟩) "/r/x").1

/-- C3 second scenario state: node 5 at `/r/y` (absent from disk), staged
for deletion. -/
def c3T : Sys := Deferred.delete (mkDeferred c3S "/r/y").1 5

/-- Witness for C3 at concrete states: the hypotheses hold and the
round-trip theorem applies. -/
theorem C3_deferred_deletion_round_trip_witness :
    pathExistsB c3S.fs (getNode c3S 4).path = true
    ∧ pathExistsB (Deferred.commit (Deferred.delete c3S 4) 4).fs
        (getNode c3S 4).path = false
    ∧ (Deferred.commit c3T 5).fs = c3T.fs :=
  ⟨by decide,
   (C3_deferred_deletion_round_trip c3S c3T 4 5 (by decide) (by decide)
     (by decide) (by decide)).2.2.2.1,
   (C3_deferred_deletion_round_trip c3S c3T 4 5 (by decide) (by decide)
     (by decide) (by decide)).2.2.2.2.2.2.2.2.1⟩

/-! ## Claim C2 — identity-cache uniqueness -/

/-- C2 counterexample scenario: two serializer constructions whose raw
path arguments normalize to the same path (`/r/./x` and `/r/x`). -/
def c2A : Sys × Nat := mkSerializer (fileInit "/r" ⟨["/r"], []⟩) "/r/./x"

/-- Second construction, same normalized path, different raw argument. -/
def c2B : Sys × Nat := mkSerializer c2A.1 "/r/x"

/-- C2 counterexample: the two calls' paths canonicalize identically and
both cache entries are live (the first instance is still referenced), yet
two *different* instances are returned — `WeakCache.__call__` keys on
`str(args) + str(kwargs)`, the raw arguments, not the normalized path. -/
theorem C2_normalization_counterexample :
    normpath "/r/./x" = normpath "/r/x"
    ∧ (getNode c2B.1 c2A.2).path = (getNode c2B.1 c2B.2).path
    ∧ dictGet c2B.1.cache (cacheKey .serializerCls "/r/./x" "/r") = some c2A.2
    ∧ dictGet c2B.1.cache (cacheKey .serializerCls "/r/x" "/r") = some c2B.2
    ∧ c2A.2 ≠ c2B.2 := by decide

/-- C2 amended: two construction calls with *textually identical* raw
arguments (the actual cache key), made while the first instance is alive,
return the very same instance — and the second call changes nothing. -/
theorem C2_identity_cache_raw_key (s : Sys) (cls : Cls) (dt : Option JType)
    (dv : JVal) (raw : String) :
    (constructSer (constructSer s cls dt dv raw).1 cls dt dv raw).2
      = (constructSer s cls dt dv raw).2
    ∧ (constructSer (constructSer s cls dt dv raw).1 cls dt dv raw).1
      = (constructSer s cls dt dv raw).1 := by
  cases h : dictGet s.cache (cacheKey cls raw s.filePath) with
  | some nid => simp [constructSer, h]
  | none => simp [constructSer, h]

/-! ## Claim C7 — atomic type rejection on write -/

/-- C7: assigning a value that is not an instance of the declared
container type returns the `ValueError` and the state — value, hydrated
flag, pending-deletion flag, dirty/clean flag, ledger, disk — is exactly
the input state. -/
theorem C7_type_mismatch_atomic_rejection (s : Sys) (nid : Nat) (v : JVal) (t : JType)
    (hdt : (getNode s nid).dataType = some t)
    (hmis : isInstance v t = false) :
    Serializer.dataSet s nid v =
      (s, .error ("Unable to set data, expected type '" ++ typeName t ++
        "' got '" ++ valTypeName v ++ "'.")) := by
  simp [Serializer.dataSet, hdt, hmis]

/-- C7 scenario: the root's `.attributes` container (node 2,
`data_type = OrderedDict`). -/
def c7S : Sys := fileInit "/r" ⟨["/r"], []⟩

/-- Witness for C7: assigning the integer `5` to the `.attributes`
container is rejected and the state is untouched. -/
theorem C7_type_mismatch_atomic_rejection_witness :
    (getNode c7S 2).dataType = some JType.jobj
    ∧ isInstance (JVal.num 5) JType.jobj = false
    ∧ Serializer.dataSet c7S 2 (JVal.num 5) =
      (c7S, .error ("Unable to set data, expected type '" ++ typeName JType.jobj ++
        "' got '" ++ valTypeName (JVal.num 5) ++ "'.")) :=
  ⟨by decide, by decide,
   C7_type_mismatch_atomic_rejection c7S 2 (JVal.num 5) JType.jobj (by decide) (by decide)⟩

/-! ## Claim C8 — lazy read failure handling -/

/-- C8: reading a not-yet-hydrated serializer whose backing file exists
but does not parse returns an error carrying the original cause and the
file path, and leaves the state exactly as it was (not hydrated, default
value still in memory); once the file is replaced by a parseable document
the next read succeeds, hydrates the node with the loaded value and marks
it clean. -/
theorem C8_lazy_read_failure (s : Sys) (nid : Nat) (err : String) (v : JVal)
    (hinit : (getNode s nid).initialized = false)
    (hbad : fileGet s.fs (getNode s nid).path = some (.invalid err)) :
    Serializer.dataGet s nid =
      (s, .error (err ++ " in '" ++ (getNode s nid).path ++ "'."))
    ∧ (Serializer.dataGet
        { s with fs := fsWrite s.fs (getNode s nid).path (.json v) } nid).2 = .ok v
    ∧ (getNode (Serializer.dataGet
        { s with fs := fsWrite s.fs (getNode s nid).path (.json v) } nid).1 nid).initialized
        = true
    ∧ (getNode (Serializer.dataGet
        { s with fs := fsWrite s.fs (getNode s nid).path (.json v) } nid).1 nid).data = v
    ∧ (getNode (Serializer.dataGet
        { s with fs := fsWrite s.fs (getNode s nid).path (.json v) } nid).1 nid).unsaved
        = false := by
  have hg : getNode { s with fs := fsWrite s.fs (getNode s nid).path (.json v) } nid
      = getNode s nid := rfl
  have hfg : fileGet (fsWrite s.fs (getNode s nid).path (.json v)) (getNode s nid).path
      = some (.json v) := by
    simp [fsWrite, fileGet]
  refine ⟨?_, ?_, ?_, ?_, ?_⟩ <;>
    simp [Serializer.dataGet, hg, hinit, hbad, hfg, pathExistsB, isfileB]

/-- C8 scenario: root `/r` whose `.attributes` file exists but does not
parse. -/
def c8S : Sys :=
  fileInit "/r" ⟨["/r"], [("/r/.attributes",
    FileContent.invalid "Expecting value: line 1 column 1 (char 0)")]⟩

/-- Witness for C8 at the concrete scenario. -/
theorem C8_lazy_read_failure_witness :
    (getNode c8S 2).initialized = false
    ∧ Serializer.dataGet c8S 2 =
      (c8S, .error ("Expecting value: line 1 column 1 (char 0)" ++ " in '" ++
        (getNode c8S 2).path ++ "'."))
    ∧ (Serializer.dataGet
        { c8S with fs := (fsWrite c8S.fs (getNode c8S 2).path
            (.json (JVal.obj [("k", JVal.str "v")]))) } 2).2
        = .ok (JVal.obj [("k", JVal.str "v")]) :=
  ⟨by decide,
   (C8_lazy_read_failure c8S 2 "Expecting value: line 1 column 1 (char 0)"
     (JVal.obj [("k", JVal.str "v")]) (by decide) (by rfl)).1,
   (C8_lazy_read_failure c8S 2 "Expecting value: line 1 column 1 (char 0)"
     (JVal.obj [("k", JVal.str "v")]) (by decide) (by rfl)).2.1⟩

/-! ## Claim C10 — clear_cache without flush cancels a pending deletion -/

/-- C10: after `delete()` (pending, dirty) a `clear_cache(False)` makes
the node clean and no longer pending without touching the disk, with the
default value and not hydrated; a later `commit()` then *writes* the file
(with the default value) at the node's path instead of removing it. -/
theorem C10_clear_cache_discards_staged_deletion (s : Sys) (nid : Nat) :
    (Serializer.clear_cache (Serializer.delete s nid) nid false).fs = s.fs
    ∧ (getNode (Serializer.clear_cache (Serializer.delete s nid) nid false) nid).pendingDeletion
        = false
    ∧ (getNode (Serializer.clear_cache (Serializer.delete s nid) nid false) nid).unsaved = false
    ∧ (getNode (Serializer.clear_cache (Serializer.delete s nid) nid false) nid).initialized
        = false
    ∧ (getNode (Serializer.clear_cache (Serializer.delete s nid) nid false) nid).data
        = defaultOf (getNode s nid).dataType
    ∧ fileGet (Serializer.commit
          (Serializer.clear_cache (Serializer.delete s nid) nid false) nid).fs
        (getNode s nid).path
        = some (.json (defaultOf (getNode s nid).dataType))
    ∧ pathExistsB (Serializer.commit
          (Serializer.clear_cache (Serializer.delete s nid) nid false) nid).fs
        (getNode s nid).path = true := by
  refine ⟨?_, ?_, ?_, ?_, ?_, ?_, ?_⟩ <;>
    simp [Serializer.delete, Serializer.clear_cache, Serializer.commit,
      Deferred.delete, fsWrite, fileGet, pathExistsB, isfileB]


/-- Decidable equality for `Except` results (not provided by this library
version). -/
instance {e a : Type} [DecidableEq e] [DecidableEq a] : DecidableEq (Except e a) := fun x y =>
  match x, y with
  | .ok u, .ok v =>
    if h : u = v then .isTrue (congrArg Except.ok h)
    else .isFalse (fun he => h (Except.ok.inj he))
  | .error u, .error v =>
    if h : u = v then .isTrue (congrArg Except.error h)
    else .isFalse (fun he => h (Except.error.inj he))
  | .ok _, .error _ => .isFalse (fun he => Except.noConfusion he)
  | .error _, .ok _ => .isFalse (fun he => Except.noConfusion he)

/-! ## Claim C4 — ledger completeness of root commit -/

/-- C4 scenario: root `File` over `/r` (only the root exists on disk). -/
def c4s0 : Sys := fileInit "/r" ⟨["/r"], []⟩

/-- Two in-memory child directories `a` (node 4) and `b` (node 8). -/
def c4s2 : Sys :=
  (Directory.create_group (Directory.create_group c4s0 0 "a").1 0 "b").1

/-- Mutate the `.attributes` container of each child (nodes 6 and 10). -/
def c4s4 : Sys :=
  (Attribute.setItem (Attribute.setItem c4s2 6 "k" (.str "v1")).1 10 "k" (.str "v2")).1

/-- One `commit()` on the root. -/
def c4F : Sys := File.commit c4s4

/-- C4: mutating attributes on two different descendant directories makes
both containers dirty and the root report unsaved changes; a single root
`commit()` walks the ledger, after which the root reports no unsaved
changes and both mutated nodes (and both directory objects) individually
report clean. -/
theorem C4_root_commit_ledger_completeness :
    (Directory.create_group c4s0 0 "a").2 = .ok 4
    ∧ (Directory.create_group (Directory.create_group c4s0 0 "a").1 0 "b").2 = .ok 8
    ∧ (getNode c4s2 4).attrId = 6
    ∧ (getNode c4s2 8).attrId = 10
    ∧ (getNode c4s2 6).path = "/r/a/.attributes"
    ∧ (getNode c4s2 10).path = "/r/b/.attributes"
    ∧ (Attribute.setItem c4s2 6 "k" (.str "v1")).2 = .ok ()
    ∧ (Attribute.setItem (Attribute.setItem c4s2 6 "k" (.str "v1")).1 10 "k" (.str "v2")).2
        = .ok ()
    ∧ (getNode c4s4 6).unsaved = true
    ∧ (getNode c4s4 10).unsaved = true
    ∧ file_has_unsaved_changes c4s4 = true
    ∧ file_has_unsaved_changes c4F = false
    ∧ (getNode c4F 6).unsaved = false
    ∧ (getNode c4F 10).unsaved = false
    ∧ (getNode c4F 4).unsaved = false
    ∧ (getNode c4F 8).unsaved = false := by decide

/-! ## Claim C6 — dataset indirection -/

/-- C6 scenario: root `File` over `/r`; its dataset container is node 3 at
`/r/.data_sets`; the stored value is the spec's example `[1, 1, 1, 1, 1]`. -/
def c6s0 : Sys := fileInit "/r" ⟨["/r"], []⟩

/-- The dataset payload. -/
def c6w : JVal := .arr [.num 1, .num 1, .num 1, .num 1, .num 1]

/-- `datasets["weights"] = [1, 1, 1, 1, 1]`. -/
def c6s1 : Sys := (DataSet.setItem c6s0 3 "weights" c6w).1

/-- Commit everything through the root. -/
def c6c1 : Sys := File.commit c6s1

/-- `del datasets["weights"]`, then commit again. -/
def c6c2 : Sys := File.commit ((DataSet.delItem c6c1 3 "weights").1)

/-- C6: `set` stores a `None` placeholder in the manifest and writes the
value into the sibling serializer at `(parent of manifest)/key` (here
`/r/weights`, node 4); after a commit both the manifest entry and the
sibling document exist on disk; `remove` drops the manifest entry and,
after commit, the sibling's persisted value; `get` on a key absent from
the manifest raises the KeyError. -/
theorem C6_dataset_indirection :
    (DataSet.setItem c6s0 3 "weights" c6w).2 = .ok ()
    ∧ (DataSet.serializer c6s1 3 "weights").2 = 4
    ∧ (getNode c6s1 4).path = "/r/weights"
    ∧ (getNode c6s1 3).data = .obj [("weights", .null)]
    ∧ (getNode c6s1 4).data = c6w
    ∧ fileGet c6c1.fs "/r/.data_sets" = some (.json (.obj [("weights", .null)]))
    ∧ fileGet c6c1.fs "/r/weights" = some (.json c6w)
    ∧ (DataSet.delItem c6c1 3 "weights").2 = .ok ()
    ∧ fileGet c6c2.fs "/r/.data_sets" = some (.json (.obj []))
    ∧ fileGet c6c2.fs "/r/weights" = none
    ∧ pathExistsB c6c2.fs "/r/weights" = false
    ∧ (DataSet.getItem c6c2 3 "weights").2 = .error "KeyError: 'weights'" := by decide

/-! ## Claim C5 — children enumeration -/

/-- C5 scenario: root `/r` with on-disk subfolders `b` and `a`. -/
def c5s0 : Sys := fileInit "/r" ⟨["/r", "/r/b", "/r/a"], []⟩

/-- One uncommitted in-memory child `c` (node 4). -/
def c5s1 : Sys := (Directory.create_group c5s0 0 "c").1

/-- State after the first enumeration (which constructs the `a` and `b`
directory objects, nodes 8 and 12). -/
def c5it1 : Sys := (Directory.iter c5s1 0).1

/-- Stage deletion of child `b` (node 12). -/
def c5del : Sys := Deferred.delete (Directory.getItem c5it1 0 "b").1 12

/-- C5 (amended to directories that exist on disk): enumerating the root
— which has on-disk subfolders `b`, `a` and the uncommitted in-memory
child `c` — yields exactly `a, b, c` in ascending name order, and after
staging deletion of `b` it yields exactly `a, c`. -/
theorem C5_children_enumeration_on_disk :
    (Directory.create_group c5s0 0 "c").2 = .ok 4
    ∧ pathExistsB c5s1.fs "/r/c" = false
    ∧ (Directory.iter c5s1 0).2 = .ok [8, 12, 4]
    ∧ [8, 12, 4].map (fun i => (getNode c5it1 i).path) = ["/r/a", "/r/b", "/r/c"]
    ∧ (Directory.getItem c5it1 0 "b").2 = .ok 12
    ∧ (getNode c5del 12).pendingDeletion = true
    ∧ (Directory.iter c5del 0).2 = .ok [8, 4]
    ∧ [8, 4].map (fun i => (getNode (Directory.iter c5del 0).1 i).path)
        = ["/r/a", "/r/c"] := by decide

/-- C5 counterexample per the claim's universal quantification: the
in-memory-only directory `c` (node 4, not on disk) is given an in-memory
child `d` (node 8, not pending deletion), yet enumerating `c` raises
(`next(os.walk(...))` raises `StopIteration`, which PEP 479 converts to a
`RuntimeError` escaping the generator) instead of yielding `d`. -/
theorem C5_children_enumeration_counterexample :
    (Directory.create_group c5s1 4 "d").2 = .ok 8
    ∧ pathExistsB c5s1.fs "/r/c" = false
    ∧ dictGet (getNode (Directory.create_group c5s1 4 "d").1 4).memory "d" = some 8
    ∧ (getNode (Directory.create_group c5s1 4 "d").1 8).pendingDeletion = false
    ∧ (Directory.iter (Directory.create_group c5s1 4 "d").1 4).2
        = .error "RuntimeError: generator raised StopIteration" := by decide

/-! ## Claim C9 — create_group alone never changes the disk -/

/-- C9 scenario: a root `File` over a disk holding only `/r`. -/
def c9base : Sys := fileInit "/r" ⟨["/r"], []⟩

/-- `create_group("c")` on the root: child directory node 4, whose
`.attributes` serializer is node 6. -/
def c9after : Sys := (Directory.create_group c9base 0 "c").1

/-- C9: `create_group` succeeds purely in memory — the disk and the
root's dirty ledger are untouched, the new directory is registered in the
parent's in-memory child table, clean and not pending deletion — so a
subsequent root `commit()` leaves the disk unchanged and does not create
`/r/c`; the folder materializes only once one of the child's serializers
(here its `.attributes` container, node 6) is committed. -/
theorem C9_create_group_is_memory_only :
    (Directory.create_group c9base 0 "c").2 = .ok 4
    ∧ c9after.fs = ⟨["/r"], []⟩
    ∧ c9after.ledger = []
    ∧ dictGet (getNode c9after 0).memory "c" = some 4
    ∧ (getNode c9after 4).unsaved = false
    ∧ (getNode c9after 4).pendingDeletion = false
    ∧ (getNode c9after 4).attrId = 6
    ∧ (getNode c9after 6).path = "/r/c/.attributes"
    ∧ file_has_unsaved_changes c9after = false
    ∧ (File.commit c9after).fs = ⟨["/r"], []⟩
    ∧ pathExistsB (File.commit c9after).fs "/r/c" = false
    ∧ isdirB (Serializer.commit c9after 6).fs "/r/c" = true
    ∧ fileGet (Serializer.commit c9after 6).fs "/r/c/.attributes"
        = some (.json (.obj [])) := by decide
